import Mathlib

/-!
# Digital Wallet System with Fraud Detection — verification development

Shallow embedding of the wallet core of the repository: the mongoose data
model (`models/Transaction.js` and the Wallet/User models it references),
the fraud heuristics (`utils/fraudDetection.js`), and the three financial
operations of the wallet router (`routes/wallet.js`: `/deposit`,
`/withdraw`, `/transfer`).

Modelling decisions, all taken from the source:
* Amounts and balances are JS numbers; they are embedded as `ℚ`
  (exact rationals), timestamps as `Int` milliseconds, ids as `Nat`.
* An HTTP request body field that may be absent is an `Option`; the JS
  falsiness checks (`!amount`, `!toEmail`) treat `none`, `0` and `""` as
  absent, exactly as the handlers do.
* Each handler runs inside one mongoose session (`startSession` /
  `startTransaction` … `commitTransaction`), so the whole handler is a pure
  function from the committed database before the request to the committed
  database after it.  Writes made through the session are buffered and
  become visible only at `commitTransaction`; any thrown error runs
  `abortTransaction`, leaving the committed database unchanged.
* The `Transaction.find` queries inside `detectFraud` do **not** pass the
  session, so they read the committed state: the transaction created by the
  current handler is *not* visible to them.  `detectFraud` therefore
  receives the pre-request ledger.
* The fraud-flag write (`transaction[0].save({ session })`) happens before
  `commitTransaction`.  A storage fault at that write is modelled by the
  `flagSaveFault` flag: when the flag write is reached and faults, the
  handler's catch block aborts the session and answers 500 (the concrete
  message is storage dependent and modelled as `""`).
-/

/-- `type` enum of the transaction schema (`models/Transaction.js`). -/
inductive TxType
  | DEPOSIT
  | WITHDRAWAL
  | TRANSFER
deriving DecidableEq, Repr

/-- A document of the `Transaction` collection (`models/Transaction.js`).
`createdAt` comes from the schema's `timestamps: true`; `isDeleted` is
never set by the wallet routes and is omitted (it defaults to `false`). -/
structure Transaction where
  fromUserId : Option Nat
  toUserId : Option Nat
  amount : ℚ
  type : TxType
  currency : String
  isFlagged : Bool
  flagReason : Option String
  createdAt : Int
deriving DecidableEq, Repr

/-- Modelled from the spec: the `Wallet` model file is not part of the
given sources; its fields are the ones the routes read and write
(`userId`, `balance`, `currency`), matching the spec's Wallet entity. -/
structure Wallet where
  userId : Nat
  balance : ℚ
  currency : String
deriving DecidableEq, Repr

/-- Modelled from the spec: the `User` model file is not part of the given
sources; the transfer handler reads `_id`, `email` and `isDeleted`. -/
structure User where
  id : Nat
  email : String
  isDeleted : Bool
deriving DecidableEq, Repr

/-- The committed database state: the three collections the wallet core
touches. -/
structure Db where
  users : List User
  wallets : List Wallet
  transactions : List Transaction
deriving DecidableEq, Repr

/-- What a handler sends back: `res.status(s).json({...})`, with the
optional `balance` and `transaction` fields of the success payloads. -/
structure OpResult where
  status : Nat
  message : String
  balance : Option ℚ
  tx : Option Transaction
deriving DecidableEq, Repr

/-- An error response: status plus message, no payload. -/
def errRes (status : Nat) (message : String) : OpResult :=
  { status := status, message := message, balance := none, tx := none }

/-- `Wallet.findOne({ userId })`: first wallet document of the user. -/
def findWallet (wallets : List Wallet) (userId : Nat) : Option Wallet :=
  wallets.find? (fun w => w.userId == userId)

/-- `wallet.save()`: write back the (first) wallet document of `userId`
with its new balance. -/
def saveWallet : List Wallet → Nat → ℚ → List Wallet
  | [], _, _ => []
  | w :: ws, userId, b =>
    if w.userId = userId then { w with balance := b } :: ws
    else w :: saveWallet ws userId b

/-- `User.findOne({ email, isDeleted: false })`. -/
def findRecipient (users : List User) (email : String) : Option User :=
  users.find? (fun u => u.email == email && !u.isDeleted)

/-- The balance the system reports for a user: the balance of their wallet
document, `0` if they have none. -/
def balanceOf (db : Db) (userId : Nat) : ℚ :=
  match findWallet db.wallets userId with
  | some w => w.balance
  | none => 0

/-- The velocity rule's query, run without the session: all committed
transactions sent by `userId`, of type TRANSFER, created at or after
`oneHourAgo`. -/
def recentTransfers (transactions : List Transaction) (userId : Nat)
    (oneHourAgo : Int) : List Transaction :=
  transactions.filter (fun t =>
    decide (t.fromUserId = some userId ∧ t.type = TxType.TRANSFER ∧
      oneHourAgo ≤ t.createdAt))

/-- The unusual-activity rule's query, run without the session: all
committed transactions with `userId` as source or destination, created at
or after `pastMonth`. -/
def recentTouching (transactions : List Transaction) (userId : Nat)
    (pastMonth : Int) : List Transaction :=
  transactions.filter (fun t =>
    decide ((t.fromUserId = some userId ∨ t.toUserId = some userId) ∧
      pastMonth ≤ t.createdAt))

/-- `detectFraud(userId, transaction)` of `utils/fraudDetection.js`.
`transactions` is the committed ledger its queries see (the handler's own
new transaction is not in it, because the queries do not use the session);
`now` is `Date.now()`. -/
def detectFraud (transactions : List Transaction) (userId : Nat)
    (tx : Transaction) (now : Int) : Option String :=
  if tx.type = TxType.TRANSFER ∧
      5 ≤ (recentTransfers transactions userId (now - 60 * 60 * 1000)).length then
    some "Multiple transfers in a short period"
  else if tx.type = TxType.WITHDRAWAL ∧ 1000 < tx.amount then
    some "Large withdrawal"
  else
    let recentTransactions :=
      recentTouching transactions userId (now - 30 * 24 * 60 * 60 * 1000)
    if 0 < recentTransactions.length then
      let avgAmount :=
        (recentTransactions.map Transaction.amount).sum / (recentTransactions.length : ℚ)
      if avgAmount * 3 < tx.amount then
        some "Transaction amount significantly higher than average"
      else none
    else none

/-- Shared tail of every handler: the freshly created transaction document
is classified; on a fraud reason the flag fields are set and the document
saved (in the session) before the commit.  `flagSaveFault` injects a
storage fault at that save: the catch block then aborts the session, so
the committed database is unchanged and a 500 is answered. -/
def flagAndCommit (db : Db) (userId : Nat) (wallets1 : List Wallet)
    (newBalance : ℚ) (tx : Transaction) (now : Int) (okMessage : String)
    (flagSaveFault : Bool) : OpResult × Db :=
  match detectFraud db.transactions userId tx now with
  | some reason =>
    if flagSaveFault then (errRes 500 "", db)
    else
      let tx1 := { tx with isFlagged := true, flagReason := some reason }
      ({ status := 200, message := okMessage, balance := some newBalance,
          tx := some tx1 },
        { db with wallets := wallets1, transactions := db.transactions ++ [tx1] })
  | none =>
    ({ status := 200, message := okMessage, balance := some newBalance,
        tx := some tx },
      { db with wallets := wallets1, transactions := db.transactions ++ [tx] })

/-- `POST /deposit` handler of `routes/wallet.js`. -/
def deposit (db : Db) (userId : Nat) (amount : Option ℚ) (now : Int)
    (flagSaveFault : Bool) : OpResult × Db :=
  match amount with
  | none => (errRes 400 "Valid amount is required", db)
  | some a =>
    if a ≤ 0 then (errRes 400 "Valid amount is required", db)
    else
      match findWallet db.wallets userId with
      | none => (errRes 404 "Wallet not found", db)
      | some wallet =>
        let newBalance := wallet.balance + a
        let tx : Transaction :=
          { fromUserId := none, toUserId := some userId, amount := a,
            type := TxType.DEPOSIT, currency := wallet.currency,
            isFlagged := false, flagReason := none, createdAt := now }
        flagAndCommit db userId (saveWallet db.wallets userId newBalance)
          newBalance tx now "Deposit successful" flagSaveFault

/-- `POST /withdraw` handler of `routes/wallet.js`. -/
def withdraw (db : Db) (userId : Nat) (amount : Option ℚ) (now : Int)
    (flagSaveFault : Bool) : OpResult × Db :=
  match amount with
  | none => (errRes 400 "Valid amount is required", db)
  | some a =>
    if a ≤ 0 then (errRes 400 "Valid amount is required", db)
    else
      match findWallet db.wallets userId with
      | none => (errRes 404 "Wallet not found", db)
      | some wallet =>
        if wallet.balance < a then (errRes 400 "Insufficient funds", db)
        else
          let newBalance := wallet.balance - a
          let tx : Transaction :=
            { fromUserId := some userId, toUserId := none, amount := a,
              type := TxType.WITHDRAWAL, currency := wallet.currency,
              isFlagged := false, flagReason := none, createdAt := now }
          flagAndCommit db userId (saveWallet db.wallets userId newBalance)
            newBalance tx now "Withdrawal successful" flagSaveFault

/-- `POST /transfer` handler of `routes/wallet.js`.  A missing sender
wallet and an insufficient balance share one check and one answer
(`!senderWallet || senderWallet.balance < amount`). -/
def transfer (db : Db) (userId : Nat) (toEmail : Option String)
    (amount : Option ℚ) (now : Int) (flagSaveFault : Bool) : OpResult × Db :=
  match toEmail, amount with
  | none, _ => (errRes 400 "Valid recipient email and amount are required", db)
  | some _, none => (errRes 400 "Valid recipient email and amount are required", db)
  | some email, some a =>
    if email = "" ∨ a ≤ 0 then
      (errRes 400 "Valid recipient email and amount are required", db)
    else
      match findRecipient db.users email with
      | none => (errRes 404 "Recipient not found", db)
      | some recipient =>
        if recipient.id = userId then
          (errRes 400 "Cannot transfer to your own account", db)
        else
          match findWallet db.wallets userId with
          | none => (errRes 400 "Insufficient funds", db)
          | some senderWallet =>
            if senderWallet.balance < a then
              (errRes 400 "Insufficient funds", db)
            else
              match findWallet db.wallets recipient.id with
              | none => (errRes 404 "Recipient wallet not found", db)
              | some recipientWallet =>
                let wallets1 :=
                  saveWallet (saveWallet db.wallets userId (senderWallet.balance - a))
                    recipient.id (recipientWallet.balance + a)
                let tx : Transaction :=
                  { fromUserId := some userId, toUserId := some recipient.id,
                    amount := a, type := TxType.TRANSFER,
                    currency := senderWallet.currency, isFlagged := false,
                    flagReason := none, createdAt := now }
                flagAndCommit db userId wallets1 (senderWallet.balance - a)
                  tx now "Transfer successful" flagSaveFault

/-- The spec's error taxonomy (§7), read off a handler response. -/
inductive ErrKind
  | invalidAmount
  | walletNotFound
  | insufficientFunds
  | recipientNotFound
  | selfTransferNotAllowed
  | recipientWalletNotFound
  | persistenceFailure
  | noError
deriving DecidableEq, Repr

/-- Classify a handler response as one of the spec's error kinds. -/
def errKindOf (r : OpResult) : ErrKind :=
  if r.status = 200 then ErrKind.noError
  else if r.message = "Valid amount is required" then ErrKind.invalidAmount
  else if r.message = "Valid recipient email and amount are required" then ErrKind.invalidAmount
  else if r.message = "Wallet not found" then ErrKind.walletNotFound
  else if r.message = "Insufficient funds" then ErrKind.insufficientFunds
  else if r.message = "Recipient not found" then ErrKind.recipientNotFound
  else if r.message = "Cannot transfer to your own account" then ErrKind.selfTransferNotAllowed
  else if r.message = "Recipient wallet not found" then ErrKind.recipientWalletNotFound
  else ErrKind.persistenceFailure

/-- Run a sequence of transfers with one amount and recipient, one
transfer per timestamp, each against the database committed by the
previous one, with no storage faults; collects the responses. -/
def runTransfers (userId : Nat) (toEmail : Option String) (amount : Option ℚ) :
    Db → List Int → List OpResult × Db
  | db, [] => ([], db)
  | db, t :: ts =>
    let p := transfer db userId toEmail amount t false
    let q := runTransfers userId toEmail amount p.2 ts
    (p.1 :: q.1, q.2)

/-- Invariant of the spec: every wallet balance in the database is
non-negative. -/
def nonnegDb (db : Db) : Prop := ∀ w ∈ db.wallets, 0 ≤ w.balance

/-! ## Frame lemmas for wallet lookup and save -/

theorem findWallet_userId {ws : List Wallet} {u : Nat} {w : Wallet}
    (h : findWallet ws u = some w) : w.userId = u := by
  have := List.find?_some h
  simpa using this

theorem findWallet_mem {ws : List Wallet} {u : Nat} {w : Wallet}
    (h : findWallet ws u = some w) : w ∈ ws :=
  List.mem_of_find?_eq_some h

/-- Saving user `u`'s balance rewrites what `findWallet` returns for `u`. -/
theorem findWallet_saveWallet_self (ws : List Wallet) (u : Nat) (b : ℚ) :
    findWallet (saveWallet ws u b) u =
      (findWallet ws u).map (fun w => { w with balance := b }) := by
  induction ws with
  | nil => rfl
  | cons w ws ih =>
    simp only [saveWallet]
    by_cases h : w.userId = u
    · rw [if_pos h]
      unfold findWallet
      rw [List.find?_cons_of_pos _ (by simp [h]), List.find?_cons_of_pos _ (by simp [h])]
      rfl
    · rw [if_neg h]
      unfold findWallet at ih ⊢
      rw [List.find?_cons_of_neg _ (by simp [h]), List.find?_cons_of_neg _ (by simp [h])]
      exact ih

/-- Saving user `u`'s balance does not change lookups of another user. -/
theorem findWallet_saveWallet_ne (ws : List Wallet) (u v : Nat) (b : ℚ)
    (hvu : v ≠ u) :
    findWallet (saveWallet ws u b) v = findWallet ws v := by
  induction ws with
  | nil => rfl
  | cons w ws ih =>
    simp only [saveWallet]
    by_cases h : w.userId = u
    · rw [if_pos h]
      have hwv : ¬ w.userId = v := fun hv => hvu (hv.symm.trans h)
      unfold findWallet
      rw [List.find?_cons_of_neg _ (by simp [hwv]), List.find?_cons_of_neg _ (by simp [hwv])]
    · rw [if_neg h]
      unfold findWallet at ih ⊢
      by_cases h2 : w.userId = v
      · rw [List.find?_cons_of_pos _ (by simp [h2]), List.find?_cons_of_pos _ (by simp [h2])]
      · rw [List.find?_cons_of_neg _ (by simp [h2]), List.find?_cons_of_neg _ (by simp [h2])]
        exact ih

/-- Every wallet after a save is either an old wallet or carries the saved
balance. -/
theorem mem_saveWallet {w' : Wallet} {ws : List Wallet} {u : Nat} {b : ℚ}
    (h : w' ∈ saveWallet ws u b) : w'.balance = b ∨ w' ∈ ws := by
  induction ws with
  | nil => simp [saveWallet] at h
  | cons w ws ih =>
    by_cases hw : w.userId = u
    · simp only [saveWallet, if_pos hw, List.mem_cons] at h
      rcases h with h | h
      · exact Or.inl (by simp [h])
      · exact Or.inr (List.mem_cons_of_mem _ h)
    · simp only [saveWallet, if_neg hw, List.mem_cons] at h
      rcases h with h | h
      · exact Or.inr (by simp [h])
      · rcases ih h with h | h
        · exact Or.inl h
        · exact Or.inr (List.mem_cons_of_mem _ h)

/-! ## Case analyses of the three handlers

Each handler either answers an error and leaves the committed database
unchanged, or commits exactly the financial effect plus one appended
transaction. -/

theorem withdraw_cases (db : Db) (u : Nat) (amt : Option ℚ) (now : Int)
    (ff : Bool) :
    (∃ s msg, withdraw db u amt now ff = (errRes s msg, db) ∧ s ≠ 200) ∨
    (∃ a w t,
      amt = some a ∧ ¬ a ≤ 0 ∧ findWallet db.wallets u = some w ∧
      ¬ w.balance < a ∧
      ((detectFraud db.transactions u
            ⟨some u, none, a, TxType.WITHDRAWAL, w.currency, false, none, now⟩ now = none ∧
          t = ⟨some u, none, a, TxType.WITHDRAWAL, w.currency, false, none, now⟩) ∨
        (∃ r, detectFraud db.transactions u
            ⟨some u, none, a, TxType.WITHDRAWAL, w.currency, false, none, now⟩ now = some r ∧
          ff = false ∧
          t = ⟨some u, none, a, TxType.WITHDRAWAL, w.currency, true, some r, now⟩)) ∧
      withdraw db u amt now ff =
        ({ status := 200, message := "Withdrawal successful",
            balance := some (w.balance - a), tx := some t },
          { db with wallets := saveWallet db.wallets u (w.balance - a),
                    transactions := db.transactions ++ [t] })) := by
  rcases amt with _ | a
  · exact Or.inl ⟨400, "Valid amount is required", rfl, by decide⟩
  by_cases h1 : a ≤ 0
  · refine Or.inl ⟨400, "Valid amount is required", ?_, by decide⟩
    simp only [withdraw, if_pos h1]
  cases hw : findWallet db.wallets u with
  | none =>
    refine Or.inl ⟨404, "Wallet not found", ?_, by decide⟩
    simp only [withdraw, hw, if_neg h1]
  | some w =>
    by_cases h2 : w.balance < a
    · refine Or.inl ⟨400, "Insufficient funds", ?_, by decide⟩
      simp only [withdraw, hw, if_neg h1, if_pos h2]
    · cases hdf : detectFraud db.transactions u
        ⟨some u, none, a, TxType.WITHDRAWAL, w.currency, false, none, now⟩ now with
      | none =>
        refine Or.inr ⟨a, w,
          ⟨some u, none, a, TxType.WITHDRAWAL, w.currency, false, none, now⟩,
          rfl, h1, rfl, h2, Or.inl ⟨hdf, rfl⟩, ?_⟩
        simp only [withdraw, hw, if_neg h1, if_neg h2, flagAndCommit, hdf]
      | some r =>
        cases ff with
        | true =>
          refine Or.inl ⟨500, "", ?_, by decide⟩
          simp [withdraw, hw, if_neg h1, if_neg h2, flagAndCommit, hdf]
        | false =>
          refine Or.inr ⟨a, w,
            ⟨some u, none, a, TxType.WITHDRAWAL, w.currency, true, some r, now⟩,
            rfl, h1, rfl, h2, Or.inr ⟨r, hdf, rfl, rfl⟩, ?_⟩
          simp [withdraw, hw, if_neg h1, if_neg h2, flagAndCommit, hdf]

theorem deposit_cases (db : Db) (u : Nat) (amt : Option ℚ) (now : Int)
    (ff : Bool) :
    (∃ s msg, deposit db u amt now ff = (errRes s msg, db) ∧ s ≠ 200) ∨
    (∃ a w t,
      amt = some a ∧ ¬ a ≤ 0 ∧ findWallet db.wallets u = some w ∧
      ((detectFraud db.transactions u
            ⟨none, some u, a, TxType.DEPOSIT, w.currency, false, none, now⟩ now = none ∧
          t = ⟨none, some u, a, TxType.DEPOSIT, w.currency, false, none, now⟩) ∨
        (∃ r, detectFraud db.transactions u
            ⟨none, some u, a, TxType.DEPOSIT, w.currency, false, none, now⟩ now = some r ∧
          ff = false ∧
          t = ⟨none, some u, a, TxType.DEPOSIT, w.currency, true, some r, now⟩)) ∧
      deposit db u amt now ff =
        ({ status := 200, message := "Deposit successful",
            balance := some (w.balance + a), tx := some t },
          { db with wallets := saveWallet db.wallets u (w.balance + a),
                    transactions := db.transactions ++ [t] })) := by
  rcases amt with _ | a
  · exact Or.inl ⟨400, "Valid amount is required", rfl, by decide⟩
  by_cases h1 : a ≤ 0
  · refine Or.inl ⟨400, "Valid amount is required", ?_, by decide⟩
    simp only [deposit, if_pos h1]
  cases hw : findWallet db.wallets u with
  | none =>
    refine Or.inl ⟨404, "Wallet not found", ?_, by decide⟩
    simp only [deposit, hw, if_neg h1]
  | some w =>
    cases hdf : detectFraud db.transactions u
        ⟨none, some u, a, TxType.DEPOSIT, w.currency, false, none, now⟩ now with
    | none =>
      refine Or.inr ⟨a, w,
        ⟨none, some u, a, TxType.DEPOSIT, w.currency, false, none, now⟩,
        rfl, h1, rfl, Or.inl ⟨hdf, rfl⟩, ?_⟩
      simp only [deposit, hw, if_neg h1, flagAndCommit, hdf]
    | some r =>
      cases ff with
      | true =>
        refine Or.inl ⟨500, "", ?_, by decide⟩
        simp [deposit, hw, if_neg h1, flagAndCommit, hdf]
      | false =>
        refine Or.inr ⟨a, w,
          ⟨none, some u, a, TxType.DEPOSIT, w.currency, true, some r, now⟩,
          rfl, h1, rfl, Or.inr ⟨r, hdf, rfl, rfl⟩, ?_⟩
        simp [deposit, hw, if_neg h1, flagAndCommit, hdf]

theorem transfer_cases (db : Db) (u : Nat) (e : Option String)
    (amt : Option ℚ) (now : Int) (ff : Bool) :
    (∃ s msg, transfer db u e amt now ff = (errRes s msg, db) ∧ s ≠ 200) ∨
    (∃ email a recipient sw rw t,
      e = some email ∧ amt = some a ∧ ¬ (email = "" ∨ a ≤ 0) ∧
      findRecipient db.users email = some recipient ∧ ¬ recipient.id = u ∧
      findWallet db.wallets u = some sw ∧ ¬ sw.balance < a ∧
      findWallet db.wallets recipient.id = some rw ∧
      ((detectFraud db.transactions u
            ⟨some u, some recipient.id, a, TxType.TRANSFER, sw.currency, false, none, now⟩ now = none ∧
          t = ⟨some u, some recipient.id, a, TxType.TRANSFER, sw.currency, false, none, now⟩) ∨
        (∃ r, detectFraud db.transactions u
            ⟨some u, some recipient.id, a, TxType.TRANSFER, sw.currency, false, none, now⟩ now = some r ∧
          ff = false ∧
          t = ⟨some u, some recipient.id, a, TxType.TRANSFER, sw.currency, true, some r, now⟩)) ∧
      transfer db u e amt now ff =
        ({ status := 200, message := "Transfer successful",
            balance := some (sw.balance - a), tx := some t },
          { db with
              wallets := saveWallet (saveWallet db.wallets u (sw.balance - a))
                recipient.id (rw.balance + a),
              transactions := db.transactions ++ [t] })) := by
  rcases e with _ | email
  · exact Or.inl ⟨400, "Valid recipient email and amount are required", rfl, by decide⟩
  rcases amt with _ | a
  · exact Or.inl ⟨400, "Valid recipient email and amount are required", rfl, by decide⟩
  by_cases h1 : email = "" ∨ a ≤ 0
  · refine Or.inl ⟨400, "Valid recipient email and amount are required", ?_, by decide⟩
    simp only [transfer, if_pos h1]
  cases hrec : findRecipient db.users email with
  | none =>
    refine Or.inl ⟨404, "Recipient not found", ?_, by decide⟩
    simp only [transfer, hrec, if_neg h1]
  | some recipient =>
    by_cases h2 : recipient.id = u
    · refine Or.inl ⟨400, "Cannot transfer to your own account", ?_, by decide⟩
      simp only [transfer, hrec, if_neg h1, if_pos h2]
    cases hsw : findWallet db.wallets u with
    | none =>
      refine Or.inl ⟨400, "Insufficient funds", ?_, by decide⟩
      simp only [transfer, hrec, hsw, if_neg h1, if_neg h2]
    | some sw =>
      by_cases h3 : sw.balance < a
      · refine Or.inl ⟨400, "Insufficient funds", ?_, by decide⟩
        simp only [transfer, hrec, hsw, if_neg h1, if_neg h2, if_pos h3]
      cases hrw : findWallet db.wallets recipient.id with
      | none =>
        refine Or.inl ⟨404, "Recipient wallet not found", ?_, by decide⟩
        simp only [transfer, hrec, hsw, hrw, if_neg h1, if_neg h2, if_neg h3]
      | some rw =>
        cases hdf : detectFraud db.transactions u
            ⟨some u, some recipient.id, a, TxType.TRANSFER, sw.currency, false, none, now⟩ now with
        | none =>
          refine Or.inr ⟨email, a, recipient, sw, rw,
            ⟨some u, some recipient.id, a, TxType.TRANSFER, sw.currency, false, none, now⟩,
            rfl, rfl, h1, hrec, h2, rfl, h3, hrw, Or.inl ⟨hdf, rfl⟩, ?_⟩
          simp only [transfer, hrec, hsw, hrw, if_neg h1, if_neg h2, if_neg h3,
            flagAndCommit, hdf]
        | some r =>
          cases ff with
          | true =>
            refine Or.inl ⟨500, "", ?_, by decide⟩
            simp [transfer, hrec, hsw, hrw, if_neg h1, if_neg h2, if_neg h3,
              flagAndCommit, hdf]
          | false =>
            refine Or.inr ⟨email, a, recipient, sw, rw,
              ⟨some u, some recipient.id, a, TxType.TRANSFER, sw.currency, true, some r, now⟩,
              rfl, rfl, h1, hrec, h2, rfl, h3, hrw, Or.inr ⟨r, hdf, rfl, rfl⟩, ?_⟩
            simp [transfer, hrec, hsw, hrw, if_neg h1, if_neg h2, if_neg h3,
              flagAndCommit, hdf]

/-! ## Claim theorems -/

/-- C1: every successful transfer between two (necessarily distinct)
wallet-holding accounts conserves the sum of the two reported balances and
appends exactly one TRANSFER transaction recording both parties. -/
theorem c1_transfer_conservation (db : Db) (X : Nat) (e : Option String)
    (amt : Option ℚ) (now : Int) (ff : Bool) (res : OpResult) (db' : Db)
    (h : transfer db X e amt now ff = (res, db'))
    (hs : res.status = 200) :
    ∃ t Y, res.tx = some t ∧ t.type = TxType.TRANSFER ∧
      t.fromUserId = some X ∧ t.toUserId = some Y ∧ X ≠ Y ∧
      db'.transactions = db.transactions ++ [t] ∧
      balanceOf db' X + balanceOf db' Y = balanceOf db X + balanceOf db Y := by
  rcases transfer_cases db X e amt now ff with ⟨s, msg, heq, hne⟩ |
    ⟨email, a, recipient, sw, rw, t, he, ha, h1, hrec, h2, hsw, h3, hrw, htx, heq⟩
  · have hpair := heq.symm.trans h
    injection hpair with h4 h5
    subst h4
    simp [errRes] at hs
    exact absurd hs hne
  · have hpair := heq.symm.trans h
    injection hpair with h4 h5
    subst h4
    subst h5
    have hXr : X ≠ recipient.id := fun hXY => h2 hXY.symm
    have e1 : findWallet
        (saveWallet (saveWallet db.wallets X (sw.balance - a)) recipient.id (rw.balance + a)) X =
        some { sw with balance := sw.balance - a } := by
      rw [findWallet_saveWallet_ne _ recipient.id X _ hXr,
        findWallet_saveWallet_self, hsw]
      rfl
    have e2 : findWallet
        (saveWallet (saveWallet db.wallets X (sw.balance - a)) recipient.id (rw.balance + a))
        recipient.id = some { rw with balance := rw.balance + a } := by
      rw [findWallet_saveWallet_self, findWallet_saveWallet_ne _ X recipient.id _ h2, hrw]
      rfl
    refine ⟨t, recipient.id, rfl, ?_, ?_, ?_, hXr, rfl, ?_⟩
    · rcases htx with ⟨_, rfl⟩ | ⟨r, _, _, rfl⟩ <;> rfl
    · rcases htx with ⟨_, rfl⟩ | ⟨r, _, _, rfl⟩ <;> rfl
    · rcases htx with ⟨_, rfl⟩ | ⟨r, _, _, rfl⟩ <;> rfl
    · simp only [balanceOf, e1, e2, hsw, hrw]
      ring

theorem c1_transfer_conservation_witness :
    (transfer ⟨[⟨1, "a@x", false⟩, ⟨2, "b@x", false⟩],
        [⟨1, 100, "USD"⟩, ⟨2, 50, "USD"⟩], []⟩ 1 (some "b@x") (some 30) 0 false).1.status = 200 ∧
    (∃ t Y,
      (transfer ⟨[⟨1, "a@x", false⟩, ⟨2, "b@x", false⟩],
          [⟨1, 100, "USD"⟩, ⟨2, 50, "USD"⟩], []⟩ 1 (some "b@x") (some 30) 0 false).1.tx = some t ∧
      t.type = TxType.TRANSFER ∧ t.fromUserId = some 1 ∧ t.toUserId = some Y ∧ 1 ≠ Y ∧
      (transfer ⟨[⟨1, "a@x", false⟩, ⟨2, "b@x", false⟩],
          [⟨1, 100, "USD"⟩, ⟨2, 50, "USD"⟩], []⟩ 1 (some "b@x") (some 30) 0 false).2.transactions =
        (⟨[⟨1, "a@x", false⟩, ⟨2, "b@x", false⟩],
          [⟨1, 100, "USD"⟩, ⟨2, 50, "USD"⟩], []⟩ : Db).transactions ++ [t] ∧
      balanceOf (transfer ⟨[⟨1, "a@x", false⟩, ⟨2, "b@x", false⟩],
          [⟨1, 100, "USD"⟩, ⟨2, 50, "USD"⟩], []⟩ 1 (some "b@x") (some 30) 0 false).2 1 +
        balanceOf (transfer ⟨[⟨1, "a@x", false⟩, ⟨2, "b@x", false⟩],
          [⟨1, 100, "USD"⟩, ⟨2, 50, "USD"⟩], []⟩ 1 (some "b@x") (some 30) 0 false).2 Y =
      balanceOf ⟨[⟨1, "a@x", false⟩, ⟨2, "b@x", false⟩],
          [⟨1, 100, "USD"⟩, ⟨2, 50, "USD"⟩], []⟩ 1 +
        balanceOf ⟨[⟨1, "a@x", false⟩, ⟨2, "b@x", false⟩],
          [⟨1, 100, "USD"⟩, ⟨2, 50, "USD"⟩], []⟩ Y) :=
  ⟨by
    simp [transfer, findRecipient, findWallet, flagAndCommit, detectFraud,
      recentTransfers, recentTouching, saveWallet]
    norm_num,
    c1_transfer_conservation _ 1 (some "b@x") (some 30) 0 false _ _ rfl
      (by
        simp [transfer, findRecipient, findWallet, flagAndCommit, detectFraud,
          recentTransfers, recentTouching, saveWallet]
        norm_num)⟩

/-- C2: for a missing, zero or negative amount, each of deposit, withdraw
and transfer rejects with the InvalidAmount error and leaves the whole
committed database (all balances and the ledger) unchanged. -/
theorem c2_invalid_amount_rejected (db : Db) (u : Nat) (e : Option String)
    (amt : Option ℚ) (now : Int) (ff : Bool)
    (h : amt = none ∨ ∃ a, amt = some a ∧ a ≤ 0) :
    errKindOf (deposit db u amt now ff).1 = ErrKind.invalidAmount ∧
    (deposit db u amt now ff).2 = db ∧
    errKindOf (withdraw db u amt now ff).1 = ErrKind.invalidAmount ∧
    (withdraw db u amt now ff).2 = db ∧
    errKindOf (transfer db u e amt now ff).1 = ErrKind.invalidAmount ∧
    (transfer db u e amt now ff).2 = db := by
  rcases h with rfl | ⟨a, rfl, ha⟩
  · refine ⟨rfl, rfl, rfl, rfl, ?_, ?_⟩ <;> rcases e with _ | email <;> rfl
  · refine ⟨?_, ?_, ?_, ?_, ?_, ?_⟩
    · simp [deposit, if_pos ha, errKindOf, errRes]
    · simp [deposit, if_pos ha]
    · simp [withdraw, if_pos ha, errKindOf, errRes]
    · simp [withdraw, if_pos ha]
    · rcases e with _ | email
      · simp [transfer, errKindOf, errRes]
      · simp [transfer, if_pos (Or.inr ha : email = "" ∨ a ≤ 0), errKindOf, errRes]
    · rcases e with _ | email
      · rfl
      · simp [transfer, if_pos (Or.inr ha : email = "" ∨ a ≤ 0)]

theorem c2_invalid_amount_rejected_witness :
    errKindOf (deposit ⟨[], [⟨1, 5, "USD"⟩], []⟩ 1 (some (-5)) 0 false).1 = ErrKind.invalidAmount ∧
    (deposit ⟨[], [⟨1, 5, "USD"⟩], []⟩ 1 (some (-5)) 0 false).2 = ⟨[], [⟨1, 5, "USD"⟩], []⟩ ∧
    errKindOf (withdraw ⟨[], [⟨1, 5, "USD"⟩], []⟩ 1 (some (-5)) 0 false).1 = ErrKind.invalidAmount ∧
    (withdraw ⟨[], [⟨1, 5, "USD"⟩], []⟩ 1 (some (-5)) 0 false).2 = ⟨[], [⟨1, 5, "USD"⟩], []⟩ ∧
    errKindOf (transfer ⟨[], [⟨1, 5, "USD"⟩], []⟩ 1 (some "b@x") (some (-5)) 0 false).1 = ErrKind.invalidAmount ∧
    (transfer ⟨[], [⟨1, 5, "USD"⟩], []⟩ 1 (some "b@x") (some (-5)) 0 false).2 = ⟨[], [⟨1, 5, "USD"⟩], []⟩ :=
  c2_invalid_amount_rejected ⟨[], [⟨1, 5, "USD"⟩], []⟩ 1 (some "b@x") (some (-5)) 0 false
    (Or.inr ⟨-5, rfl, by norm_num⟩)

/-- C3: withdrawing exactly the full positive balance succeeds and leaves
balance 0; withdrawing any amount strictly greater than the balance fails
with InsufficientFunds and leaves the database (balance and ledger)
unchanged. -/
theorem c3_withdraw_full_or_over (db : Db) (u : Nat) (w : Wallet) (now : Int)
    (ff : Bool) (hw : findWallet db.wallets u = some w) (hb : 0 < w.balance) :
    ((withdraw db u (some w.balance) now false).1.status = 200 ∧
      (withdraw db u (some w.balance) now false).1.balance = some 0 ∧
      findWallet (withdraw db u (some w.balance) now false).2.wallets u =
        some { w with balance := 0 }) ∧
    (∀ a : ℚ, w.balance < a →
      errKindOf (withdraw db u (some a) now ff).1 = ErrKind.insufficientFunds ∧
      withdraw db u (some a) now ff = (errRes 400 "Insufficient funds", db)) := by
  constructor
  · have h1 : ¬ (w.balance ≤ 0) := not_le.mpr hb
    have h2 : ¬ (w.balance < w.balance) := lt_irrefl _
    have hfw : findWallet (saveWallet db.wallets u (w.balance - w.balance)) u =
        some { w with balance := 0 } := by
      rw [findWallet_saveWallet_self, hw, sub_self]
      rfl
    simp only [withdraw, hw, if_neg h1, if_neg h2, flagAndCommit]
    split
    · refine ⟨rfl, by simp, hfw⟩
    · refine ⟨rfl, by simp, hfw⟩
  · intro a haa
    have h1 : ¬ (a ≤ 0) := not_le.mpr (lt_trans hb haa)
    simp only [withdraw, hw, if_neg h1, if_pos haa]
    exact ⟨by decide, trivial⟩

theorem c3_withdraw_full_or_over_witness :
    ((withdraw ⟨[], [⟨1, 5, "USD"⟩], []⟩ 1 (some 5) 0 false).1.status = 200 ∧
      (withdraw ⟨[], [⟨1, 5, "USD"⟩], []⟩ 1 (some 5) 0 false).1.balance = some 0 ∧
      findWallet (withdraw ⟨[], [⟨1, 5, "USD"⟩], []⟩ 1 (some 5) 0 false).2.wallets 1 =
        some ⟨1, 0, "USD"⟩) ∧
    (errKindOf (withdraw ⟨[], [⟨1, 5, "USD"⟩], []⟩ 1 (some 6) 0 false).1 =
        ErrKind.insufficientFunds ∧
      withdraw ⟨[], [⟨1, 5, "USD"⟩], []⟩ 1 (some 6) 0 false =
        (errRes 400 "Insufficient funds", ⟨[], [⟨1, 5, "USD"⟩], []⟩)) := by
  have h := c3_withdraw_full_or_over ⟨[], [⟨1, 5, "USD"⟩], []⟩ 1 ⟨1, 5, "USD"⟩ 0 false
    rfl (by norm_num)
  exact ⟨h.1, h.2 6 (by norm_num)⟩

/-- C7: the large-withdrawal rule flags every WITHDRAWAL whose amount
exceeds 1000 with reason "Large withdrawal" (whatever the ledger holds),
and the concrete scenario: balance 2000 USD, withdraw 1500 succeeds with
new balance 500 and a flagged WITHDRAWAL transaction of amount 1500. -/
theorem c7_large_withdrawal (transactions : List Transaction) (userId : Nat)
    (tx : Transaction) (now : Int)
    (hty : tx.type = TxType.WITHDRAWAL) (hamt : 1000 < tx.amount) :
    detectFraud transactions userId tx now = some "Large withdrawal" ∧
    withdraw ⟨[], [⟨7, 2000, "USD"⟩], []⟩ 7 (some 1500) 0 false =
      ({ status := 200, message := "Withdrawal successful", balance := some 500,
          tx := some ⟨some 7, none, 1500, TxType.WITHDRAWAL, "USD", true,
            some "Large withdrawal", 0⟩ },
        ⟨[], [⟨7, 500, "USD"⟩],
          [⟨some 7, none, 1500, TxType.WITHDRAWAL, "USD", true,
            some "Large withdrawal", 0⟩]⟩) := by
  constructor
  · have hnv : ¬ (tx.type = TxType.TRANSFER ∧
        5 ≤ (recentTransfers transactions userId (now - 60 * 60 * 1000)).length) := by
      rintro ⟨h, -⟩
      rw [hty] at h
      exact absurd h (by decide)
    simp only [detectFraud, if_neg hnv, if_pos (And.intro hty hamt)]
  · simp [withdraw, findWallet, flagAndCommit, detectFraud, recentTransfers,
      recentTouching, saveWallet]
    norm_num

theorem c7_large_withdrawal_witness :
    detectFraud [] 3 ⟨some 3, none, 1200, TxType.WITHDRAWAL, "USD", false, none, 0⟩ 0 =
      some "Large withdrawal" :=
  (c7_large_withdrawal [] 3 ⟨some 3, none, 1200, TxType.WITHDRAWAL, "USD", false, none, 0⟩ 0
    rfl (by norm_num)).1

/-- C8: the detector checks its three rules in fixed order with the first
match winning: a firing velocity rule wins outright; otherwise a large
withdrawal wins; otherwise the outlier rule looks at the 30-day
transactions touching the actor, yields nothing on an empty set, and on a
non-empty set flags exactly when the amount exceeds three times the mean. -/
theorem c8_detectFraud_priority (transactions : List Transaction)
    (userId : Nat) (tx : Transaction) (now : Int) :
    (tx.type = TxType.TRANSFER →
      5 ≤ (recentTransfers transactions userId (now - 60 * 60 * 1000)).length →
      detectFraud transactions userId tx now =
        some "Multiple transfers in a short period") ∧
    (¬ (tx.type = TxType.TRANSFER ∧
        5 ≤ (recentTransfers transactions userId (now - 60 * 60 * 1000)).length) →
      tx.type = TxType.WITHDRAWAL → 1000 < tx.amount →
      detectFraud transactions userId tx now = some "Large withdrawal") ∧
    (¬ (tx.type = TxType.TRANSFER ∧
        5 ≤ (recentTransfers transactions userId (now - 60 * 60 * 1000)).length) →
      ¬ (tx.type = TxType.WITHDRAWAL ∧ 1000 < tx.amount) →
      ((recentTouching transactions userId (now - 30 * 24 * 60 * 60 * 1000) = [] →
          detectFraud transactions userId tx now = none) ∧
        (recentTouching transactions userId (now - 30 * 24 * 60 * 60 * 1000) ≠ [] →
          (detectFraud transactions userId tx now =
              some "Transaction amount significantly higher than average" ↔
            ((recentTouching transactions userId
                (now - 30 * 24 * 60 * 60 * 1000)).map Transaction.amount).sum /
              ((recentTouching transactions userId
                (now - 30 * 24 * 60 * 60 * 1000)).length : ℚ) * 3 < tx.amount)))) := by
  refine ⟨?_, ?_, ?_⟩
  · intro h1 h2
    simp only [detectFraud, if_pos (And.intro h1 h2)]
  · intro hnv hty hamt
    simp only [detectFraud, if_neg hnv, if_pos (And.intro hty hamt)]
  · intro hnv hnw
    constructor
    · intro hemp
      simp only [detectFraud, if_neg hnv, if_neg hnw, hemp]
      simp
    · intro hne
      have hlen : 0 < (recentTouching transactions userId
          (now - 30 * 24 * 60 * 60 * 1000)).length := List.length_pos.mpr hne
      by_cases hcmp : ((recentTouching transactions userId
            (now - 30 * 24 * 60 * 60 * 1000)).map Transaction.amount).sum /
          ((recentTouching transactions userId
            (now - 30 * 24 * 60 * 60 * 1000)).length : ℚ) * 3 < tx.amount
      · simp only [detectFraud, if_neg hnv, if_neg hnw, if_pos hlen, if_pos hcmp]
        exact iff_of_true trivial hcmp
      · simp only [detectFraud, if_neg hnv, if_neg hnw, if_pos hlen, if_neg hcmp]
        exact iff_of_false (by simp) hcmp

theorem c8_detectFraud_priority_witness :
    detectFraud
      [⟨some 1, some 2, 10, TxType.TRANSFER, "USD", false, none, 0⟩,
       ⟨some 1, some 2, 10, TxType.TRANSFER, "USD", false, none, 0⟩,
       ⟨some 1, some 2, 10, TxType.TRANSFER, "USD", false, none, 0⟩,
       ⟨some 1, some 2, 10, TxType.TRANSFER, "USD", false, none, 0⟩,
       ⟨some 1, some 2, 10, TxType.TRANSFER, "USD", false, none, 0⟩] 1
      ⟨some 1, some 2, 10, TxType.TRANSFER, "USD", false, none, 1000⟩ 1000 =
      some "Multiple transfers in a short period" :=
  (c8_detectFraud_priority _ 1 _ 1000).1 rfl (by decide)

/-- C9: each of the three operations preserves non-negativity of every
wallet balance (the funds checks run before anything is committed). -/
theorem c9_balances_nonneg (db : Db) (u : Nat) (e : Option String)
    (amt : Option ℚ) (now : Int) (ff : Bool) (h : nonnegDb db) :
    nonnegDb (deposit db u amt now ff).2 ∧
    nonnegDb (withdraw db u amt now ff).2 ∧
    nonnegDb (transfer db u e amt now ff).2 := by
  refine ⟨?_, ?_, ?_⟩
  · rcases deposit_cases db u amt now ff with ⟨s, msg, heq, -⟩ |
      ⟨a, w, t, ha, h1, hw, htx, heq⟩
    · rw [heq]
      exact h
    · rw [heq]
      intro w' hw'
      rcases mem_saveWallet hw' with hb | hmem
      · rw [hb]
        have hwb : 0 ≤ w.balance := h w (findWallet_mem hw)
        have ha' : 0 < a := not_le.mp h1
        linarith
      · exact h w' hmem
  · rcases withdraw_cases db u amt now ff with ⟨s, msg, heq, -⟩ |
      ⟨a, w, t, ha, h1, hw, h2, htx, heq⟩
    · rw [heq]
      exact h
    · rw [heq]
      intro w' hw'
      rcases mem_saveWallet hw' with hb | hmem
      · rw [hb]
        exact sub_nonneg.mpr (not_lt.mp h2)
      · exact h w' hmem
  · rcases transfer_cases db u e amt now ff with ⟨s, msg, heq, -⟩ |
      ⟨email, a, recipient, sw, rcw, t, he, ha, h1, hrec, h2, hsw, h3, hrw, htx, heq⟩
    · rw [heq]
      exact h
    · rw [heq]
      intro w' hw'
      rcases mem_saveWallet hw' with hb | hmem
      · rw [hb]
        have hrb : 0 ≤ rcw.balance := h rcw (findWallet_mem hrw)
        have ha' : 0 < a := by
          by_contra hc
          exact h1 (Or.inr (not_lt.mp hc))
        linarith
      · rcases mem_saveWallet hmem with hb | hmem2
        · rw [hb]
          exact sub_nonneg.mpr (not_lt.mp h3)
        · exact h w' hmem2

theorem c9_balances_nonneg_witness :
    nonnegDb (deposit ⟨[⟨1, "a@x", false⟩, ⟨2, "b@x", false⟩],
        [⟨1, 100, "USD"⟩, ⟨2, 50, "USD"⟩], []⟩ 1 (some 30) 0 false).2 ∧
    nonnegDb (withdraw ⟨[⟨1, "a@x", false⟩, ⟨2, "b@x", false⟩],
        [⟨1, 100, "USD"⟩, ⟨2, 50, "USD"⟩], []⟩ 1 (some 30) 0 false).2 ∧
    nonnegDb (transfer ⟨[⟨1, "a@x", false⟩, ⟨2, "b@x", false⟩],
        [⟨1, 100, "USD"⟩, ⟨2, 50, "USD"⟩], []⟩ 1 (some "b@x") (some 30) 0 false).2 :=
  c9_balances_nonneg ⟨[⟨1, "a@x", false⟩, ⟨2, "b@x", false⟩],
      [⟨1, 100, "USD"⟩, ⟨2, 50, "USD"⟩], []⟩ 1 (some "b@x") (some 30) 0 false
    (by
      intro w hw
      simp only [List.mem_cons, List.not_mem_nil, or_false] at hw
      rcases hw with rfl | rfl <;> norm_num)

/-- C10: the transfer handler performs no currency-equality check: every
successful transfer records the sender wallet's currency on the
transaction and credits the recipient wallet by the numeric amount,
whatever that wallet's currency is. -/
theorem c10_no_currency_check (db : Db) (X : Nat) (e : Option String)
    (amt : Option ℚ) (now : Int) (ff : Bool) (res : OpResult) (db' : Db)
    (h : transfer db X e amt now ff = (res, db'))
    (hs : res.status = 200) :
    ∃ t sw, res.tx = some t ∧ findWallet db.wallets X = some sw ∧
      t.currency = sw.currency ∧
      ∃ Y rcw, t.toUserId = some Y ∧ findWallet db.wallets Y = some rcw ∧
        balanceOf db' Y = rcw.balance + t.amount := by
  rcases transfer_cases db X e amt now ff with ⟨s, msg, heq, hne⟩ |
    ⟨email, a, recipient, sw, rcw, t, he, ha, h1, hrec, h2, hsw, h3, hrw, htx, heq⟩
  · have hpair := heq.symm.trans h
    injection hpair with h4 h5
    subst h4
    simp [errRes] at hs
    exact absurd hs hne
  · have hpair := heq.symm.trans h
    injection hpair with h4 h5
    subst h4
    subst h5
    have e2 : findWallet
        (saveWallet (saveWallet db.wallets X (sw.balance - a)) recipient.id (rcw.balance + a))
        recipient.id = some { rcw with balance := rcw.balance + a } := by
      rw [findWallet_saveWallet_self, findWallet_saveWallet_ne _ X recipient.id _ h2, hrw]
      rfl
    refine ⟨t, sw, rfl, hsw, ?_, recipient.id, rcw, ?_, hrw, ?_⟩
    · rcases htx with ⟨_, rfl⟩ | ⟨r, _, _, rfl⟩ <;> rfl
    · rcases htx with ⟨_, rfl⟩ | ⟨r, _, _, rfl⟩ <;> rfl
    · have hamt : t.amount = a := by
        rcases htx with ⟨_, rfl⟩ | ⟨r, _, _, rfl⟩ <;> rfl
      simp only [balanceOf, e2, hamt]

theorem c10_no_currency_check_witness :
    ∃ t sw,
      (transfer ⟨[⟨1, "a@x", false⟩, ⟨2, "b@x", false⟩],
          [⟨1, 100, "USD"⟩, ⟨2, 50, "EUR"⟩], []⟩ 1 (some "b@x") (some 30) 0 false).1.tx = some t ∧
      findWallet ([⟨1, 100, "USD"⟩, ⟨2, 50, "EUR"⟩] : List Wallet) 1 = some sw ∧
      t.currency = sw.currency ∧
      ∃ Y rcw, t.toUserId = some Y ∧
        findWallet ([⟨1, 100, "USD"⟩, ⟨2, 50, "EUR"⟩] : List Wallet) Y = some rcw ∧
        balanceOf (transfer ⟨[⟨1, "a@x", false⟩, ⟨2, "b@x", false⟩],
          [⟨1, 100, "USD"⟩, ⟨2, 50, "EUR"⟩], []⟩ 1 (some "b@x") (some 30) 0 false).2 Y =
          rcw.balance + t.amount :=
  c10_no_currency_check ⟨[⟨1, "a@x", false⟩, ⟨2, "b@x", false⟩],
      [⟨1, 100, "USD"⟩, ⟨2, 50, "EUR"⟩], []⟩ 1 (some "b@x") (some 30) 0 false _ _ rfl
    (by
      simp [transfer, findRecipient, findWallet, flagAndCommit, detectFraud,
        recentTransfers, recentTouching, saveWallet]
      norm_num)

/-- C4 counterexample: inject a storage fault at the fraud-flag write of a
withdrawal that the detector classifies as "Large withdrawal".  The
handler answers 500 and commits nothing: no balance change, no
transaction record.  The flag write is therefore not independent of the
financial commit — its failure converts the whole operation into a
reported failure with no committed-but-unflagged record. -/
theorem c4_flag_write_counterexample :
    withdraw ⟨[], [⟨1, 2000, "USD"⟩], []⟩ 1 (some 1500) 0 true =
      (errRes 500 "", ⟨[], [⟨1, 2000, "USD"⟩], []⟩) ∧
    errKindOf (withdraw ⟨[], [⟨1, 2000, "USD"⟩], []⟩ 1 (some 1500) 0 true).1 =
      ErrKind.persistenceFailure ∧
    detectFraud ([] : List Transaction) 1
      ⟨some 1, none, 1500, TxType.WITHDRAWAL, "USD", false, none, 0⟩ 0 =
      some "Large withdrawal" := by
  have hrun : withdraw ⟨[], [⟨1, 2000, "USD"⟩], []⟩ 1 (some 1500) 0 true =
      (errRes 500 "", ⟨[], [⟨1, 2000, "USD"⟩], []⟩) := by
    simp [withdraw, findWallet, flagAndCommit, detectFraud, recentTransfers,
      recentTouching, saveWallet, errRes]
    norm_num
  refine ⟨hrun, ?_, by decide⟩
  rw [hrun]
  decide

/-- C4 amended: the fraud classification and flag write happen inside the
same atomic session, before the financial commit, so any non-200 outcome
of any operation — including a flag-write storage fault, answered as
500 — leaves the committed database completely unchanged; no fault can
leave balances committed but the record unflagged. -/
theorem c4_flag_write_amended (db : Db) (u : Nat) (e : Option String)
    (amt : Option ℚ) (now : Int) (ff : Bool) :
    ((deposit db u amt now ff).1.status ≠ 200 → (deposit db u amt now ff).2 = db) ∧
    ((withdraw db u amt now ff).1.status ≠ 200 → (withdraw db u amt now ff).2 = db) ∧
    ((transfer db u e amt now ff).1.status ≠ 200 → (transfer db u e amt now ff).2 = db) := by
  refine ⟨?_, ?_, ?_⟩
  · rcases deposit_cases db u amt now ff with ⟨s, msg, heq, -⟩ |
      ⟨a, w, t, ha, h1, hw, htx, heq⟩
    · rw [heq]
      intro
      rfl
    · rw [heq]
      intro hc
      exact absurd rfl hc
  · rcases withdraw_cases db u amt now ff with ⟨s, msg, heq, -⟩ |
      ⟨a, w, t, ha, h1, hw, h2, htx, heq⟩
    · rw [heq]
      intro
      rfl
    · rw [heq]
      intro hc
      exact absurd rfl hc
  · rcases transfer_cases db u e amt now ff with ⟨s, msg, heq, -⟩ |
      ⟨email, a, recipient, sw, rcw, t, he, ha, h1, hrec, h2, hsw, h3, hrw, htx, heq⟩
    · rw [heq]
      intro
      rfl
    · rw [heq]
      intro hc
      exact absurd rfl hc

theorem c4_flag_write_amended_witness :
    (withdraw ⟨[], [⟨1, 2000, "USD"⟩], []⟩ 1 (some 1500) 0 true).2 =
      ⟨[], [⟨1, 2000, "USD"⟩], []⟩ :=
  (c4_flag_write_amended ⟨[], [⟨1, 2000, "USD"⟩], []⟩ 1 none (some 1500) 0 true).2.1
    (by
      simp [withdraw, findWallet, flagAndCommit, detectFraud, recentTransfers,
        recentTouching, saveWallet, errRes]
      norm_num)

set_option maxHeartbeats 4000000 in
/-- C5 counterexample: five transfers of 10 from the same account within
five minutes all succeed and none of them — in particular not the
fifth — is flagged.  The velocity query runs without the session, so the
just-committed transfer is invisible to it and the fifth transfer sees
only four prior transfers in the window, short of the threshold of 5. -/
theorem c5_velocity_counterexample :
    ((runTransfers 1 (some "b@x") (some 10)
        ⟨[⟨1, "a@x", false⟩, ⟨2, "b@x", false⟩],
          [⟨1, 1000, "USD"⟩, ⟨2, 0, "USD"⟩], []⟩
        [0, 60000, 120000, 180000, 240000]).1.map
      (fun r => (r.status, r.tx.map Transaction.isFlagged,
        r.tx.map Transaction.flagReason))) =
      [(200, some false, some none), (200, some false, some none),
       (200, some false, some none), (200, some false, some none),
       (200, some false, some none)] := by
  repeat
    first
      | (simp [runTransfers, transfer, findRecipient, findWallet, flagAndCommit,
          detectFraud, recentTransfers, recentTouching, saveWallet])
      | norm_num

set_option maxHeartbeats 8000000 in
/-- C5 amended: the velocity rule counts only the previously committed
TRANSFER transactions of the actor in the trailing hour (the
just-committed one is invisible to its session-less query) and flags when
that count reaches 5: in a same-hour sequence, transfers 1–5 are
unflagged and transfer 6 is the first one flagged with reason
"Multiple transfers in a short period". -/
theorem c5_velocity_amended :
    ((runTransfers 1 (some "b@x") (some 10)
        ⟨[⟨1, "a@x", false⟩, ⟨2, "b@x", false⟩],
          [⟨1, 1000, "USD"⟩, ⟨2, 0, "USD"⟩], []⟩
        [0, 60000, 120000, 180000, 240000, 300000]).1.map
      (fun r => (r.status, r.tx.map Transaction.isFlagged,
        r.tx.map Transaction.flagReason))) =
      [(200, some false, some none), (200, some false, some none),
       (200, some false, some none), (200, some false, some none),
       (200, some false, some none),
       (200, some true, some (some "Multiple transfers in a short period"))] := by
  repeat
    first
      | (simp [runTransfers, transfer, findRecipient, findWallet, flagAndCommit,
          detectFraud, recentTransfers, recentTouching, saveWallet])
      | norm_num

/-- C6 counterexample: an actor without a wallet who transfers to an
existing recipient is answered with the InsufficientFunds error (the
handler merges the missing-wallet case into the funds check), not with a
distinct WalletNotFound error as the claim states. -/
theorem c6_no_wallet_counterexample :
    findWallet ([⟨2, 50, "USD"⟩] : List Wallet) 1 = none ∧
    errKindOf (transfer ⟨[⟨1, "a@x", false⟩, ⟨2, "b@x", false⟩], [⟨2, 50, "USD"⟩], []⟩
        1 (some "b@x") (some 10) 0 false).1 = ErrKind.insufficientFunds ∧
    errKindOf (transfer ⟨[⟨1, "a@x", false⟩, ⟨2, "b@x", false⟩], [⟨2, 50, "USD"⟩], []⟩
        1 (some "b@x") (some 10) 0 false).1 ≠ ErrKind.walletNotFound := by
  refine ⟨rfl, ?_, ?_⟩ <;>
  · have hrun : transfer ⟨[⟨1, "a@x", false⟩, ⟨2, "b@x", false⟩], [⟨2, 50, "USD"⟩], []⟩
        1 (some "b@x") (some 10) 0 false =
        (errRes 400 "Insufficient funds",
          ⟨[⟨1, "a@x", false⟩, ⟨2, "b@x", false⟩], [⟨2, 50, "USD"⟩], []⟩) := by
      simp [transfer, findRecipient, findWallet]
    rw [hrun]
    decide

/-- C6 amended: transfer validation runs in the fixed order amount →
recipient existence → self-transfer → funds, every failure deterministic
and state-preserving; an actor without a wallet, however, is reported
with the same InsufficientFunds error as an insufficient balance, not
with a distinct WalletNotFound error. -/
theorem c6_transfer_validation_order (db : Db) (u : Nat) (now : Int) (ff : Bool) :
    (∀ e amt, (e = none ∨ e = some "" ∨ amt = none ∨ ∃ a, amt = some a ∧ a ≤ 0) →
      transfer db u e amt now ff =
        (errRes 400 "Valid recipient email and amount are required", db)) ∧
    (∀ email (a : ℚ), ¬ email = "" → 0 < a →
      findRecipient db.users email = none →
      errKindOf (transfer db u (some email) (some a) now ff).1 =
        ErrKind.recipientNotFound ∧
      transfer db u (some email) (some a) now ff =
        (errRes 404 "Recipient not found", db)) ∧
    (∀ email (a : ℚ) r, ¬ email = "" → 0 < a →
      findRecipient db.users email = some r → r.id = u →
      errKindOf (transfer db u (some email) (some a) now ff).1 =
        ErrKind.selfTransferNotAllowed ∧
      transfer db u (some email) (some a) now ff =
        (errRes 400 "Cannot transfer to your own account", db)) ∧
    (∀ email (a : ℚ) r, ¬ email = "" → 0 < a →
      findRecipient db.users email = some r → ¬ r.id = u →
      (findWallet db.wallets u = none ∨
        ∃ sw, findWallet db.wallets u = some sw ∧ sw.balance < a) →
      errKindOf (transfer db u (some email) (some a) now ff).1 =
        ErrKind.insufficientFunds ∧
      transfer db u (some email) (some a) now ff =
        (errRes 400 "Insufficient funds", db)) := by
  refine ⟨?_, ?_, ?_, ?_⟩
  · rintro e amt (rfl | rfl | rfl | ⟨a, rfl, ha⟩)
    · rfl
    · rcases amt with _ | a
      · rfl
      · simp [transfer]
    · rcases e with _ | email <;> rfl
    · rcases e with _ | email
      · rfl
      · simp only [transfer, if_pos (Or.inr ha : email = "" ∨ a ≤ 0)]
  · intro email a hem hpos hrec
    have hcond : ¬ (email = "" ∨ a ≤ 0) := by
      rintro (h | h)
      exacts [hem h, absurd h (not_le.mpr hpos)]
    rw [show transfer db u (some email) (some a) now ff =
        (errRes 404 "Recipient not found", db) from by
      simp only [transfer, if_neg hcond, hrec]]
    exact ⟨rfl, rfl⟩
  · intro email a r hem hpos hrec hrid
    have hcond : ¬ (email = "" ∨ a ≤ 0) := by
      rintro (h | h)
      exacts [hem h, absurd h (not_le.mpr hpos)]
    rw [show transfer db u (some email) (some a) now ff =
        (errRes 400 "Cannot transfer to your own account", db) from by
      simp only [transfer, if_neg hcond, hrec, if_pos hrid]]
    exact ⟨rfl, rfl⟩
  · intro email a r hem hpos hrec hrid hwal
    have hcond : ¬ (email = "" ∨ a ≤ 0) := by
      rintro (h | h)
      exacts [hem h, absurd h (not_le.mpr hpos)]
    have hrun : transfer db u (some email) (some a) now ff =
        (errRes 400 "Insufficient funds", db) := by
      rcases hwal with hnone | ⟨sw, hsw, hlt⟩
      · simp only [transfer, if_neg hcond, hrec, if_neg hrid, hnone]
      · simp only [transfer, if_neg hcond, hrec, if_neg hrid, hsw, if_pos hlt]
    rw [hrun]
    exact ⟨rfl, rfl⟩

theorem c6_transfer_validation_order_witness :
    errKindOf (transfer ⟨[⟨1, "a@x", false⟩, ⟨2, "b@x", false⟩], [⟨2, 50, "USD"⟩], []⟩
        1 (some "b@x") (some 10) 0 false).1 = ErrKind.insufficientFunds ∧
    transfer ⟨[⟨1, "a@x", false⟩, ⟨2, "b@x", false⟩], [⟨2, 50, "USD"⟩], []⟩
        1 (some "b@x") (some 10) 0 false =
      (errRes 400 "Insufficient funds",
        ⟨[⟨1, "a@x", false⟩, ⟨2, "b@x", false⟩], [⟨2, 50, "USD"⟩], []⟩) :=
  (c6_transfer_validation_order
      ⟨[⟨1, "a@x", false⟩, ⟨2, "b@x", false⟩], [⟨2, 50, "USD"⟩], []⟩ 1 0 false).2.2.2
    "b@x" 10 ⟨2, "b@x", false⟩ (by decide) (by norm_num) rfl (by decide) (Or.inl rfl)
